import Mathlib

/-!
Shallow embedding of the monitoring engine of `iNodeSenseBot.py`:
the status parsers (`parse_sensors_data`, `parse_routput_status`), one
iteration of the `monitor_changes` loop (change detection plus the nested
dinput alarm debounce), one iteration of the `scheduler` loop for the daily
report, and the report builder `send_daily_report`.

Python dictionaries are embedded as association lists with Python dict
semantics (assignment replaces the value in place when the key exists and
appends otherwise; iteration follows insertion order).  Timestamps are
embedded as seconds (`Nat`) for the monitoring loop and as a
day/hour/minute record for the minute-cadence scheduler.  Messaging-send
failures are embedded as a `sendOk` predicate on the index of the send
attempt: the source wraps every `bot.send_message` in its own
`try/except`, so a failed send only changes what is delivered, which the
embedding returns separately from the attempted alerts.
-/

namespace INodeSense

/-- Raw binary input entry of the fetched JSON document (`dinputs` array):
the source reads `dinput['name']` and `dinput['status']`. -/
structure DInput where
  name : String
  status : String
deriving DecidableEq, Repr

/-- Raw sensor entry of the fetched JSON document (`sensors` array): the
source reads `sensor['name']`, `sensor['status']`, `sensor.get('value')`,
`sensor.get('dim')`.  Values are embedded as the strings they are rendered
to in messages. -/
structure Sensor where
  name : String
  status : String
  value : Option String
  dim : Option String
deriving DecidableEq, Repr

/-- Raw `routput` object of the fetched JSON document; `none` fields embed
absent keys (the source uses `routput.get('name', None)` and
`routput.get('state', 'off')`). -/
structure ROutputRaw where
  name : Option String
  state : Option String
deriving DecidableEq, Repr

/-- The fetched JSON document restricted to the keys the program reads;
`none` embeds an absent key.  A document in which all three keys are
absent embeds the empty JSON object. -/
structure RawDoc where
  dinputs : Option (List DInput)
  sensors : Option (List Sensor)
  routput : Option ROutputRaw
deriving DecidableEq, Repr

/-- Python truthiness of the whole document at `if not json_data:` —
`None` is handled separately; an empty dict is falsy. -/
def RawDoc.isFalsy (d : RawDoc) : Bool :=
  d.dinputs = none ∧ d.sensors = none ∧ d.routput = none

/-- One parsed reading of `parsed_sensors`: `{'status': ..., 'value': ...,
'dim': ...}` (dinput-derived entries have no value/dim keys, which behave
like `none` under the `.get` reads the program performs). -/
structure SensorInfo where
  status : String
  value : Option String
  dim : Option String
deriving DecidableEq, Repr

/-- Parsed `routput` dict: `{'name': routput.get('name', None), 'state':
routput.get('state', 'off')}`.  `name` keeps the Python `None` explicitly:
the key is always present in this dict. -/
structure ParsedROutput where
  name : Option String
  state : String
deriving DecidableEq, Repr

/-! ### Association lists with Python dict semantics -/

/-- Python dict lookup `m.get(k)` / `m[k]`. -/
def lookupKV {κ α : Type} [DecidableEq κ] : List (κ × α) → κ → Option α
  | [], _ => none
  | (k, v) :: m, k' => if k = k' then some v else lookupKV m k'

/-- Python `k in m`. -/
def containsKV {κ α : Type} [DecidableEq κ] : List (κ × α) → κ → Bool
  | [], _ => false
  | (k, _) :: m, k' => if k = k' then true else containsKV m k'

/-- Replace the value bound to `k`, keeping its position. -/
def replaceKV {κ α : Type} [DecidableEq κ] : List (κ × α) → κ → α → List (κ × α)
  | [], _, _ => []
  | (k0, v0) :: m, k, v =>
      if k0 = k then (k, v) :: replaceKV m k v else (k0, v0) :: replaceKV m k v

/-- Python dict assignment `m[k] = v`: replaces in place when the key
exists, appends otherwise. -/
def dictInsert {κ α : Type} [DecidableEq κ] (m : List (κ × α)) (k : κ) (v : α) :
    List (κ × α) :=
  if containsKV m k then replaceKV m k v else m ++ [(k, v)]

/-- Python `del m[k]`. -/
def dictDelete {κ α : Type} [DecidableEq κ] : List (κ × α) → κ → List (κ × α)
  | [], _ => []
  | (k0, v0) :: m, k => if k0 = k then dictDelete m k else (k0, v0) :: dictDelete m k

/-! ### Status parsers -/

/-- First half of `parse_sensors_data`: every dinput is inserted with no
filtering of its name. -/
def insertDinputs : List DInput → List (String × SensorInfo) → List (String × SensorInfo)
  | [], m => m
  | d :: ds, m =>
      insertDinputs ds (dictInsert m d.name ⟨d.status, none, none⟩)

/-- Second half of `parse_sensors_data`: a sensor is inserted only when
`sensor['name'] != ''`. -/
def insertSensors : List Sensor → List (String × SensorInfo) → List (String × SensorInfo)
  | [], m => m
  | s :: ss, m =>
      if s.name ≠ "" then insertSensors ss (dictInsert m s.name ⟨s.status, s.value, s.dim⟩)
      else insertSensors ss m

/-- `parse_sensors_data(data)`: dinputs first, then sensors, into one
insertion-ordered dict. -/
def parse_sensors_data (doc : RawDoc) : List (String × SensorInfo) :=
  let m1 := match doc.dinputs with
    | none => []
    | some ds => insertDinputs ds []
  match doc.sensors with
  | none => m1
  | some ss => insertSensors ss m1

/-- `parse_routput_status(data)`: `data.get("routput", {})` yields a falsy
value when the key is absent or the object is empty, producing `None`;
otherwise a dict with an explicit `name` (possibly Python `None`) and a
`state` defaulting to `"off"`. -/
def parse_routput_status (doc : RawDoc) : Option ParsedROutput :=
  match doc.routput with
  | none => none
  | some r =>
      if r.name = none ∧ r.state = none then none
      else some ⟨r.name, r.state.getD "off"⟩

/-- Python dict `.get('name', dflt)` on the dict built by
`parse_routput_status`: that dict always contains the key `'name'`
(possibly bound to Python `None`), so the default is never returned. -/
def parsedGetName (r : ParsedROutput) (_dflt : String) : Option String :=
  r.name

/-- Rendering of a possibly-`None` Python string into an f-string:
`str(None)` is `"None"`. -/
def optStr : Option String → String
  | some s => s
  | none => "None"

/-! ### Alerts and engine state -/

/-- Messages the monitoring tick sends to the group chat. -/
inductive Alert where
  | sensorChanged (name status : String) (value dim : Option String)
  | alarmPersisting (name status : String)
  | outputChanged (shownName state : String)
deriving DecidableEq, Repr

/-- The process-wide mutable state the monitoring loop reads and writes:
`previous_sensors_state`, `previous_routput_state`,
`dinput_alarm_start_times` (seconds), and `bot_initialized`
(named `active` here). -/
structure EngineState where
  prevSensors : List (String × SensorInfo)
  prevRoutput : Option String
  alarmStart : List (String × Nat)
  active : Bool
deriving DecidableEq, Repr

/-- The change condition of line 225: `previous_sensor_info is None or
previous_sensor_info.get('status') != current_sensor_info.get('status')`. -/
def changeCond (prev : List (String × SensorInfo)) (n : String) (info : SensorInfo) : Bool :=
  match lookupKV prev n with
  | none => true
  | some p => p.status ≠ info.status

/-- The sensor-change alert the loop body sends for one reading, when the
change condition holds. -/
def changeAlertOpt (prev : List (String × SensorInfo)) (n : String) (info : SensorInfo) :
    Option Alert :=
  if changeCond prev n info then some (Alert.sensorChanged n info.status info.value info.dim)
  else none

/-- The inner dinput-alarm pass of lines 237-258, run over the raw
`json_data['dinputs']` list: starts a tracker entry on first detection,
fires the persisting warning when `alarm_duration >= 5 minutes` and
`alarm_duration.seconds % 300 <= POLL_INTERVAL`, and deletes the entry the
moment the status is not `'alarm'`.  A `timedelta`'s `.seconds` field is
the duration modulo one day. -/
def processDinputs (pollInterval now : Nat) :
    List DInput → List (String × Nat) → List (String × Nat) × List Alert
  | [], tr => (tr, [])
  | d :: ds, tr =>
      if d.status = "alarm" then
        match lookupKV tr d.name with
        | none => processDinputs pollInterval now ds (dictInsert tr d.name now)
        | some start =>
            let dur := now - start
            let rest := processDinputs pollInterval now ds tr
            if 300 ≤ dur ∧ dur % 86400 % 300 ≤ pollInterval then
              (rest.1, Alert.alarmPersisting d.name d.status :: rest.2)
            else rest
      else
        if containsKV tr d.name then processDinputs pollInterval now ds (dictDelete tr d.name)
        else processDinputs pollInterval now ds tr

/-- The outer loop of lines 223-258 over the parsed current snapshot: for
each reading, the change check, then — nested inside this loop in the
source — one full dinput-alarm pass over the raw `dinputs` list. -/
def sensorLoop (prev : List (String × SensorInfo)) (rawDinputs : Option (List DInput))
    (pollInterval now : Nat) :
    List (String × SensorInfo) → List (String × Nat) → List (String × Nat) × List Alert
  | [], tr => (tr, [])
  | (n, info) :: rest, tr =>
      let ca := (changeAlertOpt prev n info).toList
      let step := match rawDinputs with
        | none => (tr, [])
        | some ds => processDinputs pollInterval now ds tr
      let tail := sensorLoop prev rawDinputs pollInterval now rest step.1
      (tail.1, ca ++ step.2 ++ tail.2)

/-- Delivered messages: the attempted sends whose individually wrapped
`bot.send_message` succeeded. -/
def selectDelivered (sendOk : Nat → Bool) (alerts : List Alert) : List Alert :=
  (alerts.enum.filter (fun q => sendOk q.1)).map (fun q => q.2)

/-- One iteration of the `monitor_changes` loop.  Returns the state after
the iteration, the alerts whose send was attempted (in order), and the
delivered subset.  The skipped-tick paths: not initialized; fetch returned
`None` or a falsy document; `parse_routput_status` returned `None`, in
which case line 218 (`current_routput_info['state']`) raises and the
loop's `except` clause skips to the next tick with nothing mutated. -/
def monitorTick (pollInterval : Nat) (routputName : String) (st : EngineState)
    (fetched : Option RawDoc) (now : Nat) (sendOk : Nat → Bool) :
    EngineState × List Alert × List Alert :=
  if st.active = true then
    match fetched with
    | none => (st, [], [])
    | some doc =>
        if doc.isFalsy then (st, [], [])
        else
          match parse_routput_status doc with
          | none => (st, [], [])
          | some rinfo =>
              let current := parse_sensors_data doc
              let res := sensorLoop st.prevSensors doc.dinputs pollInterval now current
                st.alarmStart
              let shown := optStr (parsedGetName rinfo routputName)
              let outAlert : List Alert :=
                match st.prevRoutput with
                | none => [Alert.outputChanged shown rinfo.state]
                | some p =>
                    if p ≠ rinfo.state then [Alert.outputChanged shown rinfo.state] else []
              let attempted := res.2 ++ outAlert
              (⟨current, some rinfo.state, res.1, st.active⟩, attempted,
                selectDelivered sendOk attempted)
  else (st, [], [])

/-- A run of monitoring ticks (all sends succeeding), concatenating the
attempted alerts. -/
def monitorRun (pollInterval : Nat) (routputName : String) :
    EngineState → List (Option RawDoc × Nat) → EngineState × List Alert
  | st, [] => (st, [])
  | st, (f, now) :: ticks =>
      let r := monitorTick pollInterval routputName st f now (fun _ => true)
      let rest := monitorRun pollInterval routputName r.1 ticks
      (rest.1, r.2.1 ++ rest.2)

/-- Number of `alarmPersisting` warnings in a list of alerts. -/
def countAlarmPersisting (alerts : List Alert) : Nat :=
  (alerts.filter (fun a => match a with | .alarmPersisting _ _ => true | _ => false)).length

/-- Number of `outputChanged` alerts in a list of alerts. -/
def countOutputChanged (alerts : List Alert) : Nat :=
  (alerts.filter (fun a => match a with | .outputChanged _ _ => true | _ => false)).length

/-- The tick times (with multiplicity) at which a run emits
`alarmPersisting` warnings. -/
def alarmFireTimes (pollInterval : Nat) (routputName : String) :
    EngineState → List (Option RawDoc × Nat) → List Nat
  | _, [] => []
  | st, (f, now) :: ticks =>
      let r := monitorTick pollInterval routputName st f now (fun _ => true)
      List.replicate (countAlarmPersisting r.2.1) now ++
        alarmFireTimes pollInterval routputName r.1 ticks

/-- Does the alert list contain a sensor-change alert for name `n`? -/
def isSCFor (n : String) : Alert → Bool
  | .sensorChanged m _ _ _ => m = n
  | _ => false

/-- Boolean: some sensor-change alert for `n` was emitted. -/
def emitsSensorChangedFor (alerts : List Alert) (n : String) : Bool :=
  alerts.any (isSCFor n)

/-! ### Daily report -/

/-- The content of the daily report message: the parsed readings, the
routput name exactly as rendered into the message text, and the routput
state. -/
structure DailyReport where
  sensors : List (String × SensorInfo)
  routputName : String
  routputState : String
deriving DecidableEq, Repr

/-- `send_daily_report()`: nothing is sent when the fetch fails or the
document is falsy; when `parse_routput_status` returns `None`, line 189
(`routput_info.get('name', ROUTPUT_NAME)`) raises on `None` and the
function's `except` clause swallows the error, so nothing is sent then
either.  Otherwise the report renders the routput name via
`.get('name', ROUTPUT_NAME)` on a dict whose `'name'` key is always
present. -/
def send_daily_report (fetched : Option RawDoc) (fallback : String) : Option DailyReport :=
  match fetched with
  | none => none
  | some doc =>
      if doc.isFalsy then none
      else
        match parse_routput_status doc with
        | none => none
        | some rinfo =>
            some ⟨parse_sensors_data doc, optStr (parsedGetName rinfo fallback), rinfo.state⟩

/-! ### Daily report scheduler -/

/-- A configured report time, parsed from its `"HH:MM"` string: (hour,
minute). -/
abbrev RTime := Nat × Nat

/-- The scheduler's view of the clock: `datetime.now(MOSCOW_TZ)` reduced
to the fields it reads (the date, and the hour/minute both of the
comparison and of the midnight test). -/
structure LocalTime where
  day : Nat
  hour : Nat
  minute : Nat
deriving DecidableEq, Repr

/-- Line 466's comparison `now >= target_datetime`.  `target_datetime` is
`datetime.combine(now.date(), target_time, tzinfo=MOSCOW_TZ)`: passing a
pytz zone through the `tzinfo=` argument attaches the zone's base entry —
LMT, +2:30 for Europe/Moscow (pytz keeps offsets rounded to the minute) —
whereas `now = datetime.now(MOSCOW_TZ)` carries the properly localized
+3:00 offset.  Aware datetimes compare by UTC instant, so
`now >= target_datetime` is `wall(now) - 3:00 >= wall(target) - 2:30`,
i.e. the wall clock of `now` must be at least 30 minutes past the
configured time of the same date (a configured time within 30 minutes of
midnight is never reached).  `now`'s seconds are nonnegative and the
threshold falls on an exact minute, so minute granularity is exact. -/
def timeReached (now : LocalTime) (t : RTime) : Bool :=
  decide (60 * t.1 + t.2 + 30 ≤ 60 * now.hour + now.minute)

/-- One iteration of the `scheduler` loop.  `dOk` is whether a
`send_daily_report` attempt in this iteration actually dispatches a
message (its internal fetch and send succeed; the function itself never
raises).  Returns the flags after the iteration, the report times
attempted, and the report times actually dispatched.  The flag dict's keys
are always exactly the configured times (initialization and the midnight
reset both build it that way), so the embedded lookup's `getD` default is
never consulted. -/
def schedulerStep (times : List RTime) (flags : List (RTime × Bool)) (now : LocalTime)
    (dOk : Bool) : List (RTime × Bool) × List RTime × List RTime :=
  let loop := times.foldl
    (fun (acc : List (RTime × Bool) × List RTime × List RTime) t =>
      if timeReached now t && !((lookupKV acc.1 t).getD false) then
        (dictInsert acc.1 t true, acc.2.1 ++ [t], acc.2.2 ++ (if dOk then [t] else []))
      else acc)
    (flags, [], [])
  let flagsAfter := if now.hour = 0 ∧ now.minute = 0 then times.map (fun t => (t, false))
    else loop.1
  (flagsAfter, loop.2.1, loop.2.2)

/-- A run of scheduler iterations, recording attempted and dispatched
report times with their evaluation instants. -/
def schedRun (times : List RTime) (dOk : Bool) :
    List (RTime × Bool) → List LocalTime →
      List (RTime × Bool) × List (LocalTime × RTime) × List (LocalTime × RTime)
  | flags, [] => (flags, [], [])
  | flags, now :: rest =>
      let r := schedulerStep times flags now dOk
      let tail := schedRun times dOk r.1 rest
      (tail.1, r.2.1.map (fun t => (now, t)) ++ tail.2.1,
        r.2.2.map (fun t => (now, t)) ++ tail.2.2)

/-- The minute after `t`, with hour and day carry (the scheduler sleeps 60
seconds between iterations). -/
def nextMinute (t : LocalTime) : LocalTime :=
  if t.minute + 1 < 60 then ⟨t.day, t.hour, t.minute + 1⟩
  else if t.hour + 1 < 24 then ⟨t.day, t.hour + 1, 0⟩
  else ⟨t.day + 1, 0, 0⟩

/-- `n` consecutive minute-cadence evaluation instants starting at `t`. -/
def minuteTicks : LocalTime → Nat → List LocalTime
  | _, 0 => []
  | t, n + 1 => t :: minuteTicks (nextMinute t) n

/-- The clock `n` minutes after `t`. -/
def minuteShift : LocalTime → Nat → LocalTime
  | t, 0 => t
  | t, n + 1 => minuteShift (nextMinute t) n

/-- The keys of an association list, in order. -/
def keysOf {κ α : Type} (m : List (κ × α)) : List κ := m.map Prod.fst

/-! ### Concrete documents, states and runs used by the claim instances -/

/-- Document with one binary input `D` in alarm and the output on. -/
def docAlarmD : RawDoc := ⟨some [⟨"D", "alarm"⟩], none, some ⟨some "R", some "on"⟩⟩

/-- Engine state seeded with `docAlarmD`, as `/start` would leave it. -/
def stAlarmD : EngineState := ⟨parse_sensors_data docAlarmD, some "on", [], true⟩

/-- 241 poll instants at a 3-second cadence: elapsed 0, 3, …, 720 seconds
(12 minutes), each fetching `docAlarmD`. -/
def ticksAlarmD : List (Option RawDoc × Nat) :=
  (List.range 241).map (fun i => (some docAlarmD, 3 * i))

/-- Same alarm document plus one unrelated sensor reading, so the parsed
snapshot holds two readings. -/
def docAlarmD2 : RawDoc :=
  ⟨some [⟨"D", "alarm"⟩], some [⟨"S", "normal", some "20", some "C"⟩],
    some ⟨some "R", some "on"⟩⟩

/-- Engine state seeded with `docAlarmD2`. -/
def stAlarmD2 : EngineState := ⟨parse_sensors_data docAlarmD2, some "on", [], true⟩

/-- The 12-minute 3-second-cadence run over `docAlarmD2`. -/
def ticksAlarmD2 : List (Option RawDoc × Nat) :=
  (List.range 241).map (fun i => (some docAlarmD2, 3 * i))

/-- The single configured report time 17:30. -/
def reportTimes1730 : List RTime := [(17, 30)]

/-- Its flag dict, reset state. -/
def flags1730false : List (RTime × Bool) := [((17, 30), false)]

/-- Previous snapshot `{A: status normal, value 10}`. -/
def stValueOnly : EngineState :=
  ⟨[("A", ⟨"normal", some "10", none⟩)], some "off", [], true⟩

/-- Current document `{A: status normal, value 99}` — same status, changed
value. -/
def docValueOnly : RawDoc :=
  ⟨none, some [⟨"A", "normal", some "99", none⟩], some ⟨some "R", some "off"⟩⟩

/-- A document with sensor readings but no `routput` key. -/
def docNoOut : RawDoc := ⟨some [⟨"B", "normal"⟩], none, none⟩

/-- A document whose `routput` has `state = "on"`. -/
def docOutOn : RawDoc := ⟨none, none, some ⟨some "Out", some "on"⟩⟩

/-- Initialized engine that recorded output state `"on"`. -/
def stOutOn : EngineState := ⟨[], some "on", [], true⟩

/-- Initialized engine that recorded output state `"off"`. -/
def stOutOff : EngineState := ⟨[], some "off", [], true⟩

/-- A document whose dinputs list holds an entry with an empty name. -/
def docEmptyDinput : RawDoc := ⟨some [⟨"", "alarm"⟩], none, some ⟨some "R", some "off"⟩⟩

/-- A document with an empty-name sensor entry and a named dinput. -/
def docEmptySensor : RawDoc :=
  ⟨some [⟨"D", "normal"⟩], some [⟨"", "alarm", some "5", none⟩, ⟨"S", "ok", none, none⟩],
    some ⟨some "R", some "off"⟩⟩

/-- A document whose `routput` object has a state but no name. -/
def docNoName : RawDoc := ⟨none, some [⟨"T", "ok", some "21", some "C"⟩], some ⟨none, some "on"⟩⟩

/-- Engine state matching `docNoName` except for the output state. -/
def stNoName : EngineState := ⟨[("T", ⟨"ok", some "21", some "C"⟩)], some "off", [], true⟩

/-- Previous snapshot `{A: normal}`, to be confronted with a changed
status in a document lacking `routput`. -/
def stPrevNormal : EngineState := ⟨[("A", ⟨"normal", none, none⟩)], some "off", [], true⟩

/-- Current document: `A` now in alarm, no `routput` key. -/
def docAlarmNoOut : RawDoc := ⟨some [⟨"A", "alarm"⟩], none, none⟩


/-! ### Association list lemmas -/

lemma lookupKV_replaceKV_ne {κ α : Type} [DecidableEq κ] (m : List (κ × α)) (k k' : κ)
    (v : α) (hne : k' ≠ k) : lookupKV (replaceKV m k v) k' = lookupKV m k' := by
  induction m with
  | nil => rfl
  | cons kv m ih =>
      obtain ⟨k0, v0⟩ := kv
      by_cases h0 : k0 = k
      · subst h0
        simp only [replaceKV, if_pos rfl, lookupKV]
        rw [if_neg (fun h => hne h.symm), if_neg (fun h => hne h.symm)]
        exact ih
      · simp only [replaceKV, if_neg h0, lookupKV]
        by_cases h1 : k0 = k'
        · simp [h1]
        · simp [h1, ih]

lemma lookupKV_append_single_ne {κ α : Type} [DecidableEq κ] (m : List (κ × α)) (k k' : κ)
    (v : α) (hne : k' ≠ k) : lookupKV (m ++ [(k, v)]) k' = lookupKV m k' := by
  induction m with
  | nil =>
      have hk : k ≠ k' := Ne.symm hne
      simp [lookupKV, hk]
  | cons kv m ih =>
      obtain ⟨k0, v0⟩ := kv
      by_cases h1 : k0 = k'
      · simp [lookupKV, h1]
      · simp [lookupKV, h1, ih]

lemma lookupKV_dictInsert_ne {κ α : Type} [DecidableEq κ] (m : List (κ × α)) (k k' : κ)
    (v : α) (hne : k' ≠ k) : lookupKV (dictInsert m k v) k' = lookupKV m k' := by
  unfold dictInsert
  split
  · exact lookupKV_replaceKV_ne m k k' v hne
  · exact lookupKV_append_single_ne m k k' v hne

lemma keysOf_replaceKV {κ α : Type} [DecidableEq κ] (m : List (κ × α)) (k : κ) (v : α) :
    keysOf (replaceKV m k v) = keysOf m := by
  induction m with
  | nil => rfl
  | cons kv m ih =>
      obtain ⟨k0, v0⟩ := kv
      by_cases h0 : k0 = k
      · subst h0; simp [replaceKV, keysOf] at ih ⊢; exact ih
      · simp [replaceKV, h0, keysOf] at ih ⊢; exact ih

lemma containsKV_eq_true_iff {κ α : Type} [DecidableEq κ] (m : List (κ × α)) (k : κ) :
    containsKV m k = true ↔ k ∈ keysOf m := by
  induction m with
  | nil => simp [containsKV, keysOf]
  | cons kv m ih =>
      obtain ⟨k0, v0⟩ := kv
      by_cases h0 : k0 = k
      · simp [containsKV, h0, keysOf]
      · simp [containsKV, h0, keysOf, Ne.symm h0] at ih ⊢
        simpa [keysOf] using ih

lemma nodup_keysOf_dictInsert {κ α : Type} [DecidableEq κ] (m : List (κ × α)) (k : κ)
    (v : α) (h : (keysOf m).Nodup) : (keysOf (dictInsert m k v)).Nodup := by
  unfold dictInsert
  split
  · rw [keysOf_replaceKV]; exact h
  · rename_i hc
    have hk : k ∉ keysOf m := by
      intro hmem
      rw [← containsKV_eq_true_iff (m := m) (k := k)] at hmem
      simp [hmem] at hc
    have : keysOf (m ++ [(k, v)]) = keysOf m ++ [k] := by simp [keysOf]
    rw [this]
    exact List.Nodup.append h (List.nodup_singleton k) (by simpa using hk)

lemma nodup_keysOf_insertDinputs (ds : List DInput) (m : List (String × SensorInfo))
    (h : (keysOf m).Nodup) : (keysOf (insertDinputs ds m)).Nodup := by
  induction ds generalizing m with
  | nil => exact h
  | cons d ds ih => exact ih _ (nodup_keysOf_dictInsert _ _ _ h)

lemma nodup_keysOf_insertSensors (ss : List Sensor) (m : List (String × SensorInfo))
    (h : (keysOf m).Nodup) : (keysOf (insertSensors ss m)).Nodup := by
  induction ss generalizing m with
  | nil => exact h
  | cons s ss ih =>
      unfold insertSensors
      split
      · exact ih _ (nodup_keysOf_dictInsert _ _ _ h)
      · exact ih _ h

lemma nodup_keysOf_parse (doc : RawDoc) : (keysOf (parse_sensors_data doc)).Nodup := by
  unfold parse_sensors_data
  have h1 : (keysOf (match doc.dinputs with
      | none => ([] : List (String × SensorInfo))
      | some ds => insertDinputs ds [])).Nodup := by
    cases doc.dinputs with
    | none => simp [keysOf]
    | some ds => exact nodup_keysOf_insertDinputs ds [] (by simp [keysOf])
  cases doc.sensors with
  | none => simpa using h1
  | some ss => exact nodup_keysOf_insertSensors ss _ h1

/-! ### Alert-stream lemmas -/

lemma emitsSC_append (l₁ l₂ : List Alert) (n : String) :
    emitsSensorChangedFor (l₁ ++ l₂) n =
      (emitsSensorChangedFor l₁ n || emitsSensorChangedFor l₂ n) := by
  simp [emitsSensorChangedFor, List.any_append]

lemma processDinputs_no_sc (p now : Nat) (ds : List DInput) (tr : List (String × Nat))
    (n : String) : emitsSensorChangedFor (processDinputs p now ds tr).2 n = false := by
  induction ds generalizing tr with
  | nil => simp [processDinputs, emitsSensorChangedFor]
  | cons d ds ih =>
      unfold processDinputs
      split
      · cases hl : lookupKV tr d.name with
        | none => simp only [hl]; exact ih _
        | some start =>
            simp only [hl]
            split
            · simpa [emitsSensorChangedFor, isSCFor] using ih tr
            · exact ih _
      · split
        · exact ih _
        · exact ih _

lemma sensorLoop_emits (prev : List (String × SensorInfo)) (rawD : Option (List DInput))
    (p now : Nat) (cur : List (String × SensorInfo)) (tr : List (String × Nat)) (n : String) :
    emitsSensorChangedFor (sensorLoop prev rawD p now cur tr).2 n =
      cur.any (fun x => decide (x.1 = n) && changeCond prev x.1 x.2) := by
  induction cur generalizing tr with
  | nil => simp [sensorLoop, emitsSensorChangedFor]
  | cons x rest ih =>
      obtain ⟨m, info⟩ := x
      show emitsSensorChangedFor
        ((changeAlertOpt prev m info).toList ++ _ ++ _) n = _
      rw [emitsSC_append, emitsSC_append]
      have hca : emitsSensorChangedFor (changeAlertOpt prev m info).toList n =
          (decide (m = n) && changeCond prev m info) := by
        unfold changeAlertOpt
        by_cases hc : changeCond prev m info = true
        · simp [hc, emitsSensorChangedFor, isSCFor]
        · simp [Bool.eq_false_iff.mpr hc, emitsSensorChangedFor]
      have hstep : emitsSensorChangedFor
          (match rawD with
            | none => (tr, ([] : List Alert))
            | some ds => processDinputs p now ds tr).2 n = false := by
        cases rawD with
        | none => simp [emitsSensorChangedFor]
        | some ds => exact processDinputs_no_sc p now ds tr n
      rw [hca, hstep, ih]
      simp [List.any_cons]

lemma any_emit_false_of_not_mem (prev : List (String × SensorInfo))
    (cur : List (String × SensorInfo)) (n : String) (h : n ∉ keysOf cur) :
    cur.any (fun x => decide (x.1 = n) && changeCond prev x.1 x.2) = false := by
  induction cur with
  | nil => rfl
  | cons x rest ih =>
      simp only [keysOf, List.map_cons, List.mem_cons] at h
      push_neg at h
      simp only [List.any_cons, Bool.or_eq_false_iff]
      constructor
      · simp [h.1.symm]
      · exact ih (by simpa [keysOf] using h.2)

lemma any_emit_eq_changeCond (prev : List (String × SensorInfo))
    (cur : List (String × SensorInfo)) (n : String) (info : SensorInfo)
    (h : lookupKV cur n = some info) (hnd : (keysOf cur).Nodup) :
    cur.any (fun x => decide (x.1 = n) && changeCond prev x.1 x.2) =
      changeCond prev n info := by
  induction cur with
  | nil => simp [lookupKV] at h
  | cons x rest ih =>
      obtain ⟨m, i⟩ := x
      simp only [keysOf, List.map_cons, List.nodup_cons] at hnd
      by_cases hm : m = n
      · subst hm
        have h' : i = info := by simpa [lookupKV] using h
        subst h'
        rw [List.any_cons, any_emit_false_of_not_mem prev rest m hnd.1]
        simp
      · simp only [lookupKV, if_neg hm] at h
        simp only [List.any_cons]
        rw [ih h hnd.2]
        simp [hm]

/-! ### Tick-shape lemmas -/

lemma routput_none_of_falsy (d : RawDoc) (h : d.isFalsy = true) :
    parse_routput_status d = none := by
  unfold RawDoc.isFalsy at h
  have h3 : d.routput = none := (of_decide_eq_true h).2.2
  simp [parse_routput_status, h3]

lemma isFalsy_false_of_routput (d : RawDoc) (r : ROutputRaw) (h : d.routput = some r) :
    d.isFalsy = false := by
  simp [RawDoc.isFalsy, h]

lemma monitorTick_fetch_none (p : Nat) (rn : String) (st : EngineState) (now : Nat)
    (sOk : Nat → Bool) (ha : st.active = true) :
    monitorTick p rn st none now sOk = (st, [], []) := by
  simp [monitorTick, ha]

lemma monitorTick_routput_none (p : Nat) (rn : String) (st : EngineState) (doc : RawDoc)
    (now : Nat) (sOk : Nat → Bool) (ha : st.active = true)
    (hr : parse_routput_status doc = none) :
    monitorTick p rn st (some doc) now sOk = (st, [], []) := by
  by_cases hf : doc.isFalsy = true
  · simp [monitorTick, ha, hf]
  · simp only [Bool.not_eq_true] at hf
    simp [monitorTick, ha, hf, hr]

lemma isFalsy_false_of_parse_some (doc : RawDoc) (r : ParsedROutput)
    (hr : parse_routput_status doc = some r) : doc.isFalsy = false := by
  cases hR : doc.routput with
  | none => simp [parse_routput_status, hR] at hr
  | some rr => exact isFalsy_false_of_routput doc rr hR

lemma monitorTick_attempted (p : Nat) (rn : String) (st : EngineState) (doc : RawDoc)
    (now : Nat) (sOk : Nat → Bool) (r : ParsedROutput) (ha : st.active = true)
    (hr : parse_routput_status doc = some r) :
    (monitorTick p rn st (some doc) now sOk).2.1 =
      (sensorLoop st.prevSensors doc.dinputs p now (parse_sensors_data doc) st.alarmStart).2 ++
        (match st.prevRoutput with
          | none => [Alert.outputChanged (optStr (parsedGetName r rn)) r.state]
          | some q =>
              if q ≠ r.state then [Alert.outputChanged (optStr (parsedGetName r rn)) r.state]
              else []) := by
  have hf : doc.isFalsy = false := isFalsy_false_of_parse_some doc r hr
  simp [monitorTick, ha, hf, hr]

lemma monitorTick_state (p : Nat) (rn : String) (st : EngineState) (doc : RawDoc)
    (now : Nat) (sOk : Nat → Bool) (r : ParsedROutput) (ha : st.active = true)
    (hr : parse_routput_status doc = some r) :
    (monitorTick p rn st (some doc) now sOk).1 =
      ⟨parse_sensors_data doc, some r.state,
        (sensorLoop st.prevSensors doc.dinputs p now (parse_sensors_data doc) st.alarmStart).1,
        st.active⟩ := by
  have hf : doc.isFalsy = false := isFalsy_false_of_parse_some doc r hr
  simp [monitorTick, ha, hf, hr]

lemma emitsSC_outAlert (q : Option String) (shown state : String) (n : String) :
    emitsSensorChangedFor
      (match q with
        | none => [Alert.outputChanged shown state]
        | some p => if p ≠ state then [Alert.outputChanged shown state] else []) n = false := by
  cases q with
  | none => simp [emitsSensorChangedFor, isSCFor]
  | some p => split <;> simp [emitsSensorChangedFor, isSCFor]

lemma lookupKV_insertDinputs_empty (ds : List DInput) (m : List (String × SensorInfo))
    (hds : ∀ d ∈ ds, d.name ≠ "") (hm : lookupKV m "" = none) :
    lookupKV (insertDinputs ds m) "" = none := by
  induction ds generalizing m with
  | nil => exact hm
  | cons d ds ih =>
      refine ih _ (fun x hx => hds x (List.mem_cons_of_mem _ hx)) ?_
      rw [lookupKV_dictInsert_ne m d.name "" _ (Ne.symm (hds d (List.mem_cons_self d ds)))]
      exact hm

lemma lookupKV_insertSensors_empty (ss : List Sensor) (m : List (String × SensorInfo))
    (hm : lookupKV m "" = none) : lookupKV (insertSensors ss m) "" = none := by
  induction ss generalizing m with
  | nil => exact hm
  | cons s ss ih =>
      unfold insertSensors
      split
      · rename_i hname
        refine ih _ ?_
        rw [lookupKV_dictInsert_ne m s.name "" _ (Ne.symm hname)]
        exact hm
      · exact ih _ hm

/-! ### Scheduler run composition lemmas -/

lemma minuteShift_add (a : Nat) : ∀ (t : LocalTime) (b : Nat),
    minuteShift t (a + b) = minuteShift (minuteShift t a) b := by
  induction a with
  | zero => intro t b; simp [minuteShift]
  | succ a ih =>
      intro t b
      have e : a + 1 + b = (a + b) + 1 := by omega
      rw [e]
      show minuteShift (nextMinute t) (a + b) = _
      rw [ih (nextMinute t) b]
      rfl

lemma minuteTicks_add (a : Nat) : ∀ (t : LocalTime) (b : Nat),
    minuteTicks t (a + b) = minuteTicks t a ++ minuteTicks (minuteShift t a) b := by
  induction a with
  | zero => intro t b; simp [minuteTicks, minuteShift]
  | succ a ih =>
      intro t b
      have e : a + 1 + b = (a + b) + 1 := by omega
      rw [e]
      simp only [minuteTicks, minuteShift, List.cons_append]
      rw [ih (nextMinute t) b]

lemma schedRun_append (times : List RTime) (dOk : Bool) (l₁ : List LocalTime) :
    ∀ (flags : List (RTime × Bool)) (l₂ : List LocalTime),
      schedRun times dOk flags (l₁ ++ l₂) =
        ((schedRun times dOk (schedRun times dOk flags l₁).1 l₂).1,
          (schedRun times dOk flags l₁).2.1 ++
            (schedRun times dOk (schedRun times dOk flags l₁).1 l₂).2.1,
          (schedRun times dOk flags l₁).2.2 ++
            (schedRun times dOk (schedRun times dOk flags l₁).1 l₂).2.2) := by
  induction l₁ with
  | nil => intro flags l₂; simp [schedRun]
  | cons now rest ih =>
      intro flags l₂
      simp only [List.cons_append, schedRun, List.append_eq]
      rw [ih]
      simp [List.append_assoc]

lemma schedRun_steady (times : List RTime) (dOk : Bool) (flags : List (RTime × Bool))
    (ticks : List LocalTime)
    (h : ∀ now ∈ ticks, schedulerStep times flags now dOk = (flags, [], [])) :
    schedRun times dOk flags ticks = (flags, [], []) := by
  induction ticks with
  | nil => rfl
  | cons now rest ih =>
      have h0 := h now (List.mem_cons_self now rest)
      simp only [schedRun, h0]
      simpa using ih (fun t ht => h t (List.mem_cons_of_mem _ ht))

lemma step_flags_true (now : LocalTime) (dOk : Bool)
    (h : ¬(now.hour = 0 ∧ now.minute = 0)) :
    schedulerStep reportTimes1730 [((17, 30), true)] now dOk =
      ([((17, 30), true)], [], []) := by
  simp [schedulerStep, reportTimes1730, lookupKV, h]

lemma step_not_reached (now : LocalTime) (dOk : Bool)
    (hm : ¬(now.hour = 0 ∧ now.minute = 0))
    (ht : timeReached now (17, 30) = false) :
    schedulerStep reportTimes1730 flags1730false now dOk = (flags1730false, [], []) := by
  simp [schedulerStep, reportTimes1730, flags1730false, ht, hm]

lemma steady_true_of_all (ticks : List LocalTime)
    (hb : ticks.all (fun t => !(decide (t.hour = 0 ∧ t.minute = 0))) = true) :
    schedRun reportTimes1730 true [((17, 30), true)] ticks =
      ([((17, 30), true)], [], []) := by
  refine schedRun_steady _ _ _ _ (fun now hmem => step_flags_true now true ?_)
  have h := List.all_eq_true.mp hb now hmem
  simp only [Bool.not_eq_true', decide_eq_false_iff_not] at h
  exact h

lemma steady_false_of_all (ticks : List LocalTime)
    (hb : ticks.all
      (fun t => !(decide (t.hour = 0 ∧ t.minute = 0)) && !(timeReached t (17, 30))) = true) :
    schedRun reportTimes1730 true flags1730false ticks = (flags1730false, [], []) := by
  refine schedRun_steady _ _ _ _ (fun now hmem => ?_)
  have h := List.all_eq_true.mp hb now hmem
  rw [Bool.and_eq_true] at h
  have h1 := h.1
  have h2 := h.2
  simp only [Bool.not_eq_true', decide_eq_false_iff_not] at h1 h2
  exact step_not_reached now true h1 h2

/-! ### Claim theorems -/

set_option maxRecDepth 4000

/-- Claim C1, counterexample: one binary input held at "alarm" for 12
minutes with a 3-second poll interval yields four `AlarmPersisting`
warnings, not the claimed two — with a poll interval that divides 300, the
condition `elapsed % 300 <= poll_interval` holds at two consecutive polls
of every 5-minute boundary (elapsed 300 and 303, then 600 and 603). -/
theorem c1_counterexample :
    countAlarmPersisting (monitorRun 3 "V" stAlarmD ticksAlarmD).2 = 4 ∧
      countAlarmPersisting (monitorRun 3 "V" stAlarmD ticksAlarmD).2 ≠ 2 := by
  constructor <;> decide

/-- Claim C1, amended: the debouncer fires on every tick with
`elapsed >= 300` and `elapsed % 300 <= poll_interval`, once per reading of
the current snapshot on each such tick (the dinput check is nested inside
the per-reading loop); the 12-minute, 3-second-cadence run fires at
elapsed 300, 303, 600 and 603 seconds when the snapshot holds only the
alarmed input, and twice at each of those instants when the snapshot holds
two readings. -/
theorem c1_amended :
    alarmFireTimes 3 "V" stAlarmD ticksAlarmD = [300, 303, 600, 603] ∧
      alarmFireTimes 3 "V" stAlarmD2 ticksAlarmD2 =
        [300, 300, 303, 303, 600, 600, 603, 603] := by
  constructor <;> decide

/-- Claim C2, counterexample: at the first evaluation whose comparison is
satisfied for the 17:30 time — the 18:00 evaluation, thirty minutes late
because of the LMT offset the `tzinfo=` argument attaches to the target —
a report attempt failing to dispatch (its internal fetch failed) still
sets the "sent today" flag to true although no report has been dispatched
since the last reset: the flag records attempts, not dispatches. -/
theorem c2_counterexample :
    (schedulerStep reportTimes1730 flags1730false ⟨1, 18, 0⟩ false).1 =
        [((17, 30), true)] ∧
      (schedulerStep reportTimes1730 flags1730false ⟨1, 18, 0⟩ false).2.2 = [] := by
  constructor <;> decide

/-- Claim C2, amended: the flag is true iff a report attempt has been made
for that time since the last reset; when every attempt's fetch and send
succeed, a report time of 17:30 evaluated once a minute from 17:00 to
18:00 is attempted exactly once and dispatched exactly once, at the 18:00
evaluation (thirty minutes after the configured time, by the pytz
`tzinfo=` offset mismatch) — the flag, not the time comparison, prevents
re-firing. -/
theorem c2_amended :
    schedRun reportTimes1730 true flags1730false (minuteTicks ⟨1, 17, 0⟩ 61) =
      ([((17, 30), true)], [(⟨1, 18, 0⟩, (17, 30))], [(⟨1, 18, 0⟩, (17, 30))]) := by
  decide

/-- Claim C3: in an initialized tick whose document yields a present
output, a `SensorChanged` alert for a reading of the current snapshot is
emitted iff its name is absent from the previous snapshot or its status
differs from the previous reading of the same name (the previous-snapshot
dict starts empty, so an absent previous snapshot is the every-name-absent
case). -/
theorem c3_sensor_change_iff (p : Nat) (rn : String) (st : EngineState) (doc : RawDoc)
    (now : Nat) (sOk : Nat → Bool) (n : String) (info : SensorInfo)
    (ha : st.active = true)
    (hr : (parse_routput_status doc).isSome = true)
    (hn : lookupKV (parse_sensors_data doc) n = some info) :
    emitsSensorChangedFor (monitorTick p rn st (some doc) now sOk).2.1 n =
      changeCond st.prevSensors n info := by
  obtain ⟨r, hr'⟩ := Option.isSome_iff_exists.mp hr
  rw [monitorTick_attempted p rn st doc now sOk r ha hr', emitsSC_append, sensorLoop_emits,
    any_emit_eq_changeCond st.prevSensors _ n info hn (nodup_keysOf_parse doc),
    emitsSC_outAlert]
  simp

/-- Claim C3, witness: previous `{A: normal, value 10}`, current
`{A: normal, value 99}` — identical status with a changed value emits no
`SensorChanged` alert. -/
theorem c3_witness :
    emitsSensorChangedFor
        (monitorTick 3 "V" stValueOnly (some docValueOnly) 0 (fun _ => true)).2.1 "A" =
        changeCond stValueOnly.prevSensors "A" ⟨"normal", some "99", none⟩ ∧
      changeCond stValueOnly.prevSensors "A" ⟨"normal", some "99", none⟩ = false :=
  ⟨c3_sensor_change_iff 3 "V" stValueOnly docValueOnly 0 (fun _ => true) "A"
      ⟨"normal", some "99", none⟩ (by decide) (by decide) (by decide),
    by decide⟩

/-- Claim C4, counterexample: starting from an initialized engine whose
recorded output state is already "on", a document with no `routput` key
followed by one with `routput.state = "on"` produces zero `OutputChanged`
alerts, not the claimed one — the first tick aborts with an internal error
instead of recording a distinct "no output" state, so the second poll
compares against the pre-run state. -/
theorem c4_counterexample :
    countOutputChanged
      (monitorRun 3 "V" stOutOn [(some docNoOut, 0), (some docOutOn, 3)]).2 = 0 := by
  decide

/-- Claim C4, amended: from an initialized engine whose recorded output
state differs from "on", the routput-less document makes the tick abort
with nothing emitted and nothing mutated, and the following document with
`routput.state = "on"` produces exactly the one `OutputChanged` alert. -/
theorem c4_amended (st : EngineState) (s0 : String) (now1 now2 : Nat) (sOk : Nat → Bool)
    (ha : st.active = true) (hp : st.prevRoutput = some s0) (hne : s0 ≠ "on") :
    monitorTick 3 "V" st (some docNoOut) now1 sOk = (st, [], []) ∧
      (monitorTick 3 "V" st (some docOutOn) now2 sOk).2.1 =
        [Alert.outputChanged "Out" "on"] := by
  constructor
  · exact monitorTick_routput_none 3 "V" st docNoOut now1 sOk ha (by decide)
  · rw [monitorTick_attempted 3 "V" st docOutOn now2 sOk ⟨some "Out", "on"⟩ ha (by decide),
      hp]
    have hparse : parse_sensors_data docOutOn = [] := by decide
    rw [hparse]
    simp [sensorLoop, hne, parsedGetName, optStr]

/-- Claim C4, witness: the amended statement at an engine whose recorded
output state is "off". -/
theorem c4_witness :
    ("off" : String) ≠ "on" ∧
      (monitorTick 3 "V" stOutOff (some docNoOut) 0 (fun _ => true) = (stOutOff, [], []) ∧
        (monitorTick 3 "V" stOutOff (some docOutOn) 3 (fun _ => true)).2.1 =
          [Alert.outputChanged "Out" "on"]) :=
  ⟨by decide,
    c4_amended stOutOff "off" 0 3 (fun _ => true) (by decide) (by decide) (by decide)⟩

/-- Claim C5, counterexample: an empty-name dinput entry is not discarded:
parsing a document whose `dinputs` list holds `{name: "", status: alarm}`
yields a snapshot that does contain the empty-string key — only the
`sensors` section is filtered. -/
theorem c5_counterexample :
    lookupKV (parse_sensors_data docEmptyDinput) "" = some ⟨"alarm", none, none⟩ := by
  decide

/-- Claim C5, amended: parsing discards sensor entries with an empty name
but does not filter dinput entries; the snapshot contains no empty-string
key provided no dinput entry has an empty name. -/
theorem c5_amended (doc : RawDoc) (h : ∀ d ∈ doc.dinputs.getD [], d.name ≠ "") :
    lookupKV (parse_sensors_data doc) "" = none := by
  have h1 : lookupKV
      (match doc.dinputs with
        | none => ([] : List (String × SensorInfo))
        | some ds => insertDinputs ds []) "" = none := by
    cases hd : doc.dinputs with
    | none => rfl
    | some ds => exact lookupKV_insertDinputs_empty ds [] (by simpa [hd] using h) rfl
  unfold parse_sensors_data
  cases hs : doc.sensors with
  | none => exact h1
  | some ss => exact lookupKV_insertSensors_empty ss _ h1

/-- Claim C5, witness: the amended statement on a document whose sensors
list contains an empty-name entry and whose dinputs are all named. -/
theorem c5_witness :
    (∀ d ∈ docEmptySensor.dinputs.getD [], d.name ≠ "") ∧
      lookupKV (parse_sensors_data docEmptySensor) "" = none :=
  ⟨by decide, c5_amended docEmptySensor (by decide)⟩

/-- Claim C6: when the document's `routput` object lacks a name, the
displayed output name is the string "None" — `parse_routput_status` stores
an explicit Python `None` under the key `'name'`, so the configured
fallback passed to `.get('name', ROUTPUT_NAME)` is dead and both the
change alert and the daily report render `str(None)`, not the fallback. -/
theorem c6_no_fallback :
    send_daily_report (some docNoName) "Вентиляция" =
        some ⟨[("T", ⟨"ok", some "21", some "C"⟩)], "None", "on"⟩ ∧
      (monitorTick 3 "Вентиляция" stNoName (some docNoName) 0 (fun _ => true)).2.1 =
        [Alert.outputChanged "None" "on"] ∧
      ("None" : String) ≠ "Вентиляция" := by
  refine ⟨by decide, by decide, by decide⟩

/-- Claim C7, counterexample: at the 17:30 evaluation of day 1, with the
flag still false and dispatch able to succeed, the scheduler does nothing:
the comparison `now >= target_datetime` is still false at the configured
time itself, because the `tzinfo=` argument gives the target an LMT +2:30
offset against `now`'s +3:00, shifting the threshold to 18:00 — so no
flag is set true at 17:30 on day 1 and no report fires then. -/
theorem c7_counterexample :
    schedulerStep reportTimes1730 flags1730false ⟨1, 17, 30⟩ true =
      (flags1730false, [], []) := by
  decide

set_option maxHeartbeats 2000000 in
/-- Claim C7, amended: at any scheduler evaluation falling on hour 0,
minute 0, every report flag is reset to false (the reset runs after the
dispatch pass, so it is the final word of that iteration, for arbitrary
configured times and incoming flags); the 17:30-configured report
actually fires at the 18:00 evaluation, thirty minutes late by the pytz
`tzinfo=` offset mismatch — the flag set true at 18:00 on day 1 is false
again from midnight, and the report fires again at 18:00 on day 2, as the
minute-cadence run from 17:30 on day 1 through 18:00 on day 2 shows. -/
theorem c7_midnight_reset :
    (∀ (times : List RTime) (flags : List (RTime × Bool)) (d : Nat) (dOk : Bool),
        (schedulerStep times flags ⟨d, 0, 0⟩ dOk).1 = times.map (fun t => (t, false))) ∧
      (schedRun reportTimes1730 true flags1730false (minuteTicks ⟨1, 17, 30⟩ 1471)).2.2 =
        [(⟨1, 18, 0⟩, (17, 30)), (⟨2, 18, 0⟩, (17, 30))] := by
  constructor
  · intro times flags d dOk
    simp [schedulerStep]
  · have e : (1471 : Nat) =
        30 + (1 + (300 + (59 + (1 + (300 + (300 + (300 + (145 + (34 + 1))))))))) := by
      norm_num
    have e3 : (300 : Nat) = 100 + (100 + 100) := by norm_num
    have sA : minuteShift ⟨1, 17, 30⟩ 30 = ⟨1, 18, 0⟩ := by decide
    have sF : minuteShift ⟨1, 18, 0⟩ 1 = ⟨1, 18, 1⟩ := by decide
    have q1 : minuteShift ⟨1, 18, 1⟩ 100 = ⟨1, 19, 41⟩ := by decide
    have q2 : minuteShift ⟨1, 19, 41⟩ 100 = ⟨1, 21, 21⟩ := by decide
    have q3 : minuteShift ⟨1, 21, 21⟩ 100 = ⟨1, 23, 1⟩ := by decide
    have sB1 : minuteShift ⟨1, 18, 1⟩ 300 = ⟨1, 23, 1⟩ := by
      rw [e3, minuteShift_add, minuteShift_add, q1, q2, q3]
    have sB2 : minuteShift ⟨1, 23, 1⟩ 59 = ⟨2, 0, 0⟩ := by decide
    have sM : minuteShift ⟨2, 0, 0⟩ 1 = ⟨2, 0, 1⟩ := by decide
    have r1 : minuteShift ⟨2, 0, 1⟩ 100 = ⟨2, 1, 41⟩ := by decide
    have r2 : minuteShift ⟨2, 1, 41⟩ 100 = ⟨2, 3, 21⟩ := by decide
    have r3 : minuteShift ⟨2, 3, 21⟩ 100 = ⟨2, 5, 1⟩ := by decide
    have sC1 : minuteShift ⟨2, 0, 1⟩ 300 = ⟨2, 5, 1⟩ := by
      rw [e3, minuteShift_add, minuteShift_add, r1, r2, r3]
    have r4 : minuteShift ⟨2, 5, 1⟩ 100 = ⟨2, 6, 41⟩ := by decide
    have r5 : minuteShift ⟨2, 6, 41⟩ 100 = ⟨2, 8, 21⟩ := by decide
    have r6 : minuteShift ⟨2, 8, 21⟩ 100 = ⟨2, 10, 1⟩ := by decide
    have sC2 : minuteShift ⟨2, 5, 1⟩ 300 = ⟨2, 10, 1⟩ := by
      rw [e3, minuteShift_add, minuteShift_add, r4, r5, r6]
    have r7 : minuteShift ⟨2, 10, 1⟩ 100 = ⟨2, 11, 41⟩ := by decide
    have r8 : minuteShift ⟨2, 11, 41⟩ 100 = ⟨2, 13, 21⟩ := by decide
    have r9 : minuteShift ⟨2, 13, 21⟩ 100 = ⟨2, 15, 1⟩ := by decide
    have sC3 : minuteShift ⟨2, 10, 1⟩ 300 = ⟨2, 15, 1⟩ := by
      rw [e3, minuteShift_add, minuteShift_add, r7, r8, r9]
    have sC4 : minuteShift ⟨2, 15, 1⟩ 145 = ⟨2, 17, 26⟩ := by decide
    have sC5 : minuteShift ⟨2, 17, 26⟩ 34 = ⟨2, 18, 0⟩ := by decide
    have hsplit : minuteTicks ⟨1, 17, 30⟩ 1471 =
        minuteTicks ⟨1, 17, 30⟩ 30 ++ (minuteTicks ⟨1, 18, 0⟩ 1 ++
          (minuteTicks ⟨1, 18, 1⟩ 300 ++ (minuteTicks ⟨1, 23, 1⟩ 59 ++
            (minuteTicks ⟨2, 0, 0⟩ 1 ++ (minuteTicks ⟨2, 0, 1⟩ 300 ++
              (minuteTicks ⟨2, 5, 1⟩ 300 ++ (minuteTicks ⟨2, 10, 1⟩ 300 ++
                (minuteTicks ⟨2, 15, 1⟩ 145 ++ (minuteTicks ⟨2, 17, 26⟩ 34 ++
                  minuteTicks ⟨2, 18, 0⟩ 1))))))))) := by
      rw [e, minuteTicks_add, sA, minuteTicks_add, sF, minuteTicks_add, sB1,
        minuteTicks_add, sB2, minuteTicks_add, sM, minuteTicks_add, sC1, minuteTicks_add,
        sC2, minuteTicks_add, sC3, minuteTicks_add, sC4, minuteTicks_add, sC5]
    have hA0 := steady_false_of_all (minuteTicks ⟨1, 17, 30⟩ 30) (by decide)
    have hB1 := steady_true_of_all (minuteTicks ⟨1, 18, 1⟩ 300) (by decide)
    have hB2 := steady_true_of_all (minuteTicks ⟨1, 23, 1⟩ 59) (by decide)
    have hC1 := steady_false_of_all (minuteTicks ⟨2, 0, 1⟩ 300) (by decide)
    have hC2 := steady_false_of_all (minuteTicks ⟨2, 5, 1⟩ 300) (by decide)
    have hC3 := steady_false_of_all (minuteTicks ⟨2, 10, 1⟩ 300) (by decide)
    have hC4 := steady_false_of_all (minuteTicks ⟨2, 15, 1⟩ 145) (by decide)
    have hC5 := steady_false_of_all (minuteTicks ⟨2, 17, 26⟩ 34) (by decide)
    have hF : schedRun reportTimes1730 true flags1730false (minuteTicks ⟨1, 18, 0⟩ 1) =
        ([((17, 30), true)], [(⟨1, 18, 0⟩, (17, 30))], [(⟨1, 18, 0⟩, (17, 30))]) := by
      decide
    have hM : schedRun reportTimes1730 true [((17, 30), true)] (minuteTicks ⟨2, 0, 0⟩ 1) =
        (flags1730false, [], []) := by decide
    have hL : schedRun reportTimes1730 true flags1730false (minuteTicks ⟨2, 18, 0⟩ 1) =
        ([((17, 30), true)], [(⟨2, 18, 0⟩, (17, 30))], [(⟨2, 18, 0⟩, (17, 30))]) := by
      decide
    rw [hsplit, schedRun_append, hA0, schedRun_append, hF, schedRun_append, hB1,
      schedRun_append, hB2, schedRun_append, hM, schedRun_append, hC1, schedRun_append,
      hC2, schedRun_append, hC3, schedRun_append, hC4, schedRun_append, hC5, hL]
    simp

/-- Claim C8: an initialized tick whose fetch fails is skipped entirely:
the state is unchanged, no alert send is attempted and nothing reaches the
messaging channel. -/
theorem c8_fetch_failure_skips (p : Nat) (rn : String) (st : EngineState) (now : Nat)
    (sOk : Nat → Bool) (ha : st.active = true) :
    monitorTick p rn st none now sOk = (st, [], []) :=
  monitorTick_fetch_none p rn st now sOk ha

/-- Claim C8, witness. -/
theorem c8_witness :
    stValueOnly.active = true ∧
      monitorTick 3 "V" stValueOnly none 0 (fun _ => true) = (stValueOnly, [], []) :=
  ⟨by decide, c8_fetch_failure_skips 3 "V" stValueOnly 0 (fun _ => true) (by decide)⟩

/-- Claim C9, counterexample: a successful fetch of a document with no
`routput` key aborts the tick before the state update, so `last_snapshot`
is not set to the current parse even though every notifier send would have
succeeded — the unconditional state-advance clause fails. -/
theorem c9_counterexample :
    (monitorTick 3 "V" stPrevNormal (some docAlarmNoOut) 0 (fun _ => true)).1.prevSensors ≠
      parse_sensors_data docAlarmNoOut := by
  decide

/-- Claim C9, amended: in an initialized tick whose fetch succeeds and
whose document parses to a present output, notification failures are
invisible to the engine — the resulting state and the attempted alert
sequence are identical whatever sends fail — and the previous snapshot and
previous output state are set to the current values. -/
theorem c9_amended (p : Nat) (rn : String) (st : EngineState) (doc : RawDoc) (now : Nat)
    (sOk : Nat → Bool) (r : ParsedROutput) (ha : st.active = true)
    (hr : parse_routput_status doc = some r) :
    (monitorTick p rn st (some doc) now sOk).1 =
        (monitorTick p rn st (some doc) now (fun _ => true)).1 ∧
      (monitorTick p rn st (some doc) now sOk).2.1 =
        (monitorTick p rn st (some doc) now (fun _ => true)).2.1 ∧
      (monitorTick p rn st (some doc) now sOk).1.prevSensors = parse_sensors_data doc ∧
      (monitorTick p rn st (some doc) now sOk).1.prevRoutput = some r.state := by
  refine ⟨?_, ?_, ?_, ?_⟩
  · rw [monitorTick_state p rn st doc now sOk r ha hr,
      monitorTick_state p rn st doc now (fun _ => true) r ha hr]
  · rw [monitorTick_attempted p rn st doc now sOk r ha hr,
      monitorTick_attempted p rn st doc now (fun _ => true) r ha hr]
  · rw [monitorTick_state p rn st doc now sOk r ha hr]
  · rw [monitorTick_state p rn st doc now sOk r ha hr]

/-- Claim C9, witness: the amended statement on a tick in which every
send fails. -/
theorem c9_witness :
    stValueOnly.active = true ∧
      parse_routput_status docValueOnly = some ⟨some "R", "off"⟩ ∧
      ((monitorTick 3 "V" stValueOnly (some docValueOnly) 0 (fun _ => false)).1 =
          (monitorTick 3 "V" stValueOnly (some docValueOnly) 0 (fun _ => true)).1 ∧
        (monitorTick 3 "V" stValueOnly (some docValueOnly) 0 (fun _ => false)).2.1 =
          (monitorTick 3 "V" stValueOnly (some docValueOnly) 0 (fun _ => true)).2.1 ∧
        (monitorTick 3 "V" stValueOnly (some docValueOnly) 0 (fun _ => false)).1.prevSensors =
          parse_sensors_data docValueOnly ∧
        (monitorTick 3 "V" stValueOnly (some docValueOnly) 0 (fun _ => false)).1.prevRoutput =
          some (ParsedROutput.mk (some "R") "off").state) :=
  ⟨by decide, by decide,
    c9_amended 3 "V" stValueOnly docValueOnly 0 (fun _ => false) ⟨some "R", "off"⟩
      (by decide) (by decide)⟩

/-- Claim C10: an initialized tick whose document parses to an absent
output (no `routput` key, or an empty `routput` object) is aborted by the
exception at `current_routput_info['state']` before any comparison: no
alert is emitted and no component of the engine state is mutated, even if
the document carries changed sensor statuses. -/
theorem c10_absent_output_aborts (p : Nat) (rn : String) (st : EngineState) (doc : RawDoc)
    (now : Nat) (sOk : Nat → Bool) (ha : st.active = true)
    (hr : parse_routput_status doc = none) :
    monitorTick p rn st (some doc) now sOk = (st, [], []) :=
  monitorTick_routput_none p rn st doc now sOk ha hr

/-- Claim C10, witness: sensor `A` switched from normal to alarm in a
document lacking `routput`, yet the tick leaves everything untouched and
emits nothing. -/
theorem c10_witness :
    stPrevNormal.active = true ∧
      parse_routput_status docAlarmNoOut = none ∧
      monitorTick 3 "V" stPrevNormal (some docAlarmNoOut) 0 (fun _ => true) =
        (stPrevNormal, [], []) :=
  ⟨by decide, by decide,
    c10_absent_output_aborts 3 "V" stPrevNormal docAlarmNoOut 0 (fun _ => true)
      (by decide) (by decide)⟩

end INodeSense
